import Mathlib

/-!
Shallow embedding of `src/codebuild-lambda-provider/index.ts` from the
LiquibaseRDS repository: the CloudFormation custom-resource handler that
starts a CodeBuild project, polls it to completion under a deadline, and
collects best-effort failure diagnostics.

External AWS calls are modelled by an `Env` record supplying the responses
(or thrown error messages) of each SDK call, together with the wall-clock
milliseconds each status query consumes.  Sleeps advance the clock by
exactly the computed wait time.  Thrown `Error`s are modelled by the
inductive `WatcherError`, whose `message` function reproduces the exact
message string built at each `throw new Error(...)` site.
-/

deriving instance DecidableEq for Except

namespace LiquibaseRDS

/-- Mirror of `interface CustomResourceProperties` (index.ts lines 13-16). -/
structure CustomResourceProperties where
  ProjectName : String
  Trigger : String
deriving Repr, DecidableEq

/-- The typed event union (index.ts line 25): a Create event carries no
`PhysicalResourceId` field; Update and Delete events carry one. -/
inductive LifecycleEvent where
  | create (LogicalResourceId : String) (props : CustomResourceProperties)
  | update (PhysicalResourceId : String) (LogicalResourceId : String)
      (props : CustomResourceProperties)
  | delete (PhysicalResourceId : String) (LogicalResourceId : String)
      (props : CustomResourceProperties)
deriving Repr, DecidableEq

/-- Evaluation of the index.ts line 36 expression
`'PhysicalResourceId' in event ? event.PhysicalResourceId : event.LogicalResourceId`:
only Update/Delete events have the field. -/
def physicalResourceIdOf : LifecycleEvent → String
  | .create l _ => l
  | .update p _ _ => p
  | .delete p _ _ => p

/-- The `throw new Error(...)` sites of index.ts. -/
inductive WatcherError where
  | startFailure (msg : String)       -- `codebuildClient.send(startBuildCommand)` threw
  | noBuildId                         -- line 94
  | statusQueryFailure (msg : String) -- `codebuildClient.send(batchGetBuildsCommand)` threw
  | buildNotFound (buildId : String)  -- line 136
  | buildTimeout (maxWaitTime : Nat)  -- line 125
  | buildFailed (buildStatus : String) -- line 102
deriving Repr, DecidableEq

/-- The `.message` of each thrown `Error`, exactly as built in index.ts. -/
def WatcherError.message : WatcherError → String
  | .startFailure m => m
  | .noBuildId => "Failed to start build: No build ID returned from CodeBuild"
  | .statusQueryFailure m => m
  | .buildNotFound b => "Build not found: " ++ b
  | .buildTimeout mw =>
      "Build timeout: exceeded maximum wait time of " ++ toString mw ++ "ms"
  | .buildFailed st => "Build failed with status: " ++ st

/-- Shape of `build.logs` in the diagnostics `BatchGetBuilds` response
(index.ts line 181); a missing `logs` object is the record with all
fields `none`. -/
structure BuildLogsInfo where
  groupName : Option String
  streamName : Option String
  deepLink : Option String
deriving Repr, DecidableEq

/-- Responses of the external AWS services for one invocation.
`statusResult n` is the outcome of the n-th `BatchGetBuilds` call of the
poll loop (n counted from 1): a thrown error message, or `builds?.[0]`
(`none` = no build record, `some st` = a record whose `buildStatus`
field is `st : Option String`).  `queryTimeMillis n` is the wall-clock
time the n-th status query consumes. -/
structure Env where
  startBuildResult : Except String (Option String)
  statusResult : Nat → Except String (Option (Option String))
  queryTimeMillis : Nat → Nat
  diagBuildResult : Except String (Option BuildLogsInfo)
  logEventsResult : Except String (Option (List (Option String)))

/-- Evaluation of `build.buildStatus || 'FAILED'` (index.ts line 139):
JavaScript `||` treats both `undefined` and the empty string as falsy. -/
def buildStatusOrFailed : Option String → String
  | none => "FAILED"
  | some s => if s = "" then "FAILED" else s

/-- Deadline budget `Math.max(context.getRemainingTimeInMillis() - 30000, 60000)`
(index.ts line 116). -/
def maxWaitTime (remainingTimeInMillis : Nat) : Nat :=
  max (remainingTimeInMillis - 30000) 60000

/-- Backoff interval `Math.min(5000 + (attempts * 1000), 30000)` (index.ts
line 144), where `attempts` has already been incremented for the current
query. -/
def waitTime (attempts : Nat) : Nat :=
  min (5000 + attempts * 1000) 30000

/-- Observable outcome of `waitForBuildCompletion`: the returned build
status or the thrown error, the number of status queries issued, the
sleep intervals, the elapsed time at which each query was issued, and
the elapsed time when the function returned or threw. -/
structure PollOutcome where
  result : Except WatcherError String
  queries : Nat
  waits : List Nat
  queryElapsed : List Nat
  endElapsed : Nat
deriving Repr, DecidableEq

/-- The `while (buildStatus === 'IN_PROGRESS')` loop of
`waitForBuildCompletion` (index.ts lines 122-148), entered with the
elapsed time since `startTime` and the current `attempts` counter. -/
def pollLoop (buildId : String) (mw : Nat)
    (statusResult : Nat → Except String (Option (Option String)))
    (queryTimeMillis : Nat → Nat)
    (elapsed attempts : Nat) : PollOutcome :=
  if elapsed > mw then
    ⟨.error (.buildTimeout mw), 0, [], [], elapsed⟩
  else
    match statusResult (attempts + 1) with
    | .error m =>
        ⟨.error (.statusQueryFailure m), 1, [], [elapsed],
          elapsed + queryTimeMillis (attempts + 1)⟩
    | .ok none =>
        ⟨.error (.buildNotFound buildId), 1, [], [elapsed],
          elapsed + queryTimeMillis (attempts + 1)⟩
    | .ok (some st) =>
      if buildStatusOrFailed st = "IN_PROGRESS" then
        let rest := pollLoop buildId mw statusResult queryTimeMillis
          (elapsed + queryTimeMillis (attempts + 1) + waitTime (attempts + 1))
          (attempts + 1)
        ⟨rest.result, rest.queries + 1, waitTime (attempts + 1) :: rest.waits,
          elapsed :: rest.queryElapsed, rest.endElapsed⟩
      else
        ⟨.ok (buildStatusOrFailed st), 1, [], [elapsed],
          elapsed + queryTimeMillis (attempts + 1)⟩
termination_by mw + 1 - elapsed
decreasing_by
  simp only [waitTime] at *
  omega

/-- Model of `waitForBuildCompletion` (index.ts lines 112-151): the loop
starts with zero elapsed time and `attempts = 0`. -/
def waitForBuildCompletion (buildId : String) (remainingTimeInMillis : Nat)
    (env : Env) : PollOutcome :=
  pollLoop buildId (maxWaitTime remainingTimeInMillis)
    env.statusResult env.queryTimeMillis 0 0

/-- JavaScript `String.prototype.trim`: drop leading and trailing
whitespace. -/
def trimWhitespace (s : String) : String :=
  ⟨((s.data.dropWhile Char.isWhitespace).reverse.dropWhile
      Char.isWhitespace).reverse⟩

/-- Model of `fetchRecentLogEvents` (index.ts lines 198-224): the non-blank
trimmed messages it writes to the console, in the order the log service
returned them; any thrown error is caught and yields no lines. -/
def fetchRecentLogEvents (env : Env) : List String :=
  match env.logEventsResult with
  | .error _ => []
  | .ok evs =>
      (((evs.getD []).filterMap (fun m => m.map trimWhitespace)).filter
        (fun s => s ≠ ""))

/-- Model of `logBuildFailureDetails` (index.ts lines 156-193): console-only and
best-effort; returns the log lines it prints.  Log events are fetched
only when both `logsInfo?.groupName` and `logsInfo?.streamName` are
truthy (non-missing and non-empty). -/
def logBuildFailureDetails (env : Env) : List String :=
  match env.diagBuildResult with
  | .error _ => []
  | .ok none => []
  | .ok (some logsInfo) =>
      match logsInfo.groupName, logsInfo.streamName with
      | some g, some s =>
          if g = "" ∨ s = "" then [] else fetchRecentLogEvents env
      | _, _ => []

/-- Observable outcome of `executeCodeBuildProject`. -/
structure ExecOutcome where
  result : Except WatcherError (String × String)  -- (buildId, buildStatus)
  startCalls : Nat
  queries : Nat
  waits : List Nat
  queryElapsed : List Nat
  diagnosticsRun : Bool
  diagnosticLogLines : List String
deriving Repr, DecidableEq

/-- Model of `executeCodeBuildProject` (index.ts lines 76-107).  The JavaScript
`if (!buildId)` check treats both an absent id and an empty string as
missing. -/
def executeCodeBuildProject (projectName : String)
    (remainingTimeInMillis : Nat) (env : Env) : ExecOutcome :=
  match env.startBuildResult with
  | .error m => ⟨.error (.startFailure m), 1, 0, [], [], false, []⟩
  | .ok none => ⟨.error .noBuildId, 1, 0, [], [], false, []⟩
  | .ok (some buildId) =>
    if buildId = "" then ⟨.error .noBuildId, 1, 0, [], [], false, []⟩
    else
      let po := waitForBuildCompletion buildId remainingTimeInMillis env
      match po.result with
      | .error e => ⟨.error e, 1, po.queries, po.waits, po.queryElapsed, false, []⟩
      | .ok buildStatus =>
        if buildStatus ≠ "SUCCEEDED" then
          ⟨.error (.buildFailed buildStatus), 1, po.queries, po.waits,
            po.queryElapsed, true, logBuildFailureDetails env⟩
        else
          ⟨.ok (buildId, buildStatus), 1, po.queries, po.waits,
            po.queryElapsed, false, []⟩

/-- Mirror of `interface CustomResourceResponse` (index.ts lines 18-22); `Data` is
the record of returned key/value pairs. -/
structure CustomResourceResponse where
  PhysicalResourceId : String
  Data : List (String × String)
  Reason : Option String
deriving Repr, DecidableEq

/-- The handler's response together with the externally observable
effects of the invocation. -/
structure HandlerOutcome where
  response : CustomResourceResponse
  startCalls : Nat
  queries : Nat
  waits : List Nat
  diagnosticsRun : Bool
  diagnosticLogLines : List String
deriving Repr, DecidableEq

/-- Model of `handler` (index.ts lines 24-71): Create/Update run the build and
convert any thrown error into a response whose `Reason` is the error's
message; Delete takes no external action and succeeds. -/
def handler (event : LifecycleEvent) (remainingTimeInMillis : Nat)
    (env : Env) : HandlerOutcome :=
  let physicalResourceId := physicalResourceIdOf event
  match event with
  | .create _ props | .update _ _ props =>
    let ex := executeCodeBuildProject props.ProjectName remainingTimeInMillis env
    match ex.result with
    | .ok (buildId, buildStatus) =>
        ⟨⟨physicalResourceId,
            [("BuildId", buildId), ("BuildStatus", buildStatus)], none⟩,
          ex.startCalls, ex.queries, ex.waits, ex.diagnosticsRun,
          ex.diagnosticLogLines⟩
    | .error e =>
        ⟨⟨physicalResourceId, [], some e.message⟩,
          ex.startCalls, ex.queries, ex.waits, ex.diagnosticsRun,
          ex.diagnosticLogLines⟩
  | .delete _ _ _ =>
      ⟨⟨physicalResourceId, [], none⟩, 0, 0, [], false, []⟩

theorem pollLoop_ok_ne (buildId : String) (mw : Nat)
    (st : Nat → Except String (Option (Option String))) (qt : Nat → Nat) :
    ∀ elapsed attempts s,
      (pollLoop buildId mw st qt elapsed attempts).result = .ok s → s ≠ "IN_PROGRESS" := by
  intro elapsed attempts
  induction elapsed, attempts using pollLoop.induct buildId mw st qt with
  | case1 el at_ h =>
    intro s hs
    rw [pollLoop] at hs
    simp [h] at hs
  | case2 el at_ h m hm =>
    intro s hs
    rw [pollLoop] at hs
    simp [h, hm] at hs
  | case3 el at_ h hm =>
    intro s hs
    rw [pollLoop] at hs
    simp [h, hm] at hs
  | case4 el at_ h v hm hv ih =>
    intro s hs
    rw [pollLoop] at hs
    simp [h, hm, hv] at hs
    exact ih s hs
  | case5 el at_ h v hm hv =>
    intro s hs
    rw [pollLoop] at hs
    simp [h, hm, hv] at hs
    subst hs
    exact hv

theorem pollLoop_queryElapsed_le (buildId : String) (mw : Nat)
    (st : Nat → Except String (Option (Option String))) (qt : Nat → Nat) :
    ∀ elapsed attempts, ∀ t ∈ (pollLoop buildId mw st qt elapsed attempts).queryElapsed,
      t ≤ mw := by
  intro elapsed attempts
  induction elapsed, attempts using pollLoop.induct buildId mw st qt with
  | case1 el at_ h =>
    intro t ht
    rw [pollLoop] at ht
    simp [h] at ht
  | case2 el at_ h m hm =>
    intro t ht
    rw [pollLoop] at ht
    simp [h, hm] at ht
    omega
  | case3 el at_ h hm =>
    intro t ht
    rw [pollLoop] at ht
    simp [h, hm] at ht
    omega
  | case4 el at_ h v hm hv ih =>
    intro t ht
    rw [pollLoop] at ht
    simp [h, hm, hv] at ht
    rcases ht with ht | ht
    · omega
    · exact ih t ht
  | case5 el at_ h v hm hv =>
    intro t ht
    rw [pollLoop] at ht
    simp [h, hm, hv] at ht
    omega

theorem pollLoop_timeout_bound (buildId : String) (mw : Nat)
    (st : Nat → Except String (Option (Option String))) (qt : Nat → Nat)
    (q : Nat) (hq : ∀ n, qt n ≤ q) :
    ∀ elapsed attempts, elapsed ≤ mw + q + 30000 →
      ∀ mw', (pollLoop buildId mw st qt elapsed attempts).result = .error (.buildTimeout mw') →
        mw' = mw ∧ mw < (pollLoop buildId mw st qt elapsed attempts).endElapsed ∧
          (pollLoop buildId mw st qt elapsed attempts).endElapsed ≤ mw + q + 30000 := by
  intro elapsed attempts
  induction elapsed, attempts using pollLoop.induct buildId mw st qt with
  | case1 el at_ h =>
    intro hel mw' hs
    rw [pollLoop] at hs ⊢
    simp [h] at hs ⊢
    omega
  | case2 el at_ h m hm =>
    intro hel mw' hs
    rw [pollLoop] at hs
    simp [h, hm] at hs
  | case3 el at_ h hm =>
    intro hel mw' hs
    rw [pollLoop] at hs
    simp [h, hm] at hs
  | case4 el at_ h v hm hv ih =>
    intro hel mw' hs
    rw [pollLoop] at hs ⊢
    simp [h, hm, hv] at hs ⊢
    have hwt : waitTime (at_ + 1) ≤ 30000 := Nat.min_le_right _ _
    have hqb := hq (at_ + 1)
    exact ih (by omega) mw' hs
  | case5 el at_ h v hm hv =>
    intro hel mw' hs
    rw [pollLoop] at hs
    simp [h, hm, hv] at hs

theorem pollLoop_queries_pos (buildId : String) (mw : Nat)
    (st : Nat → Except String (Option (Option String))) (qt : Nat → Nat)
    (elapsed attempts : Nat) (h : elapsed ≤ mw) :
    1 ≤ (pollLoop buildId mw st qt elapsed attempts).queries := by
  rw [pollLoop]
  rw [if_neg (by omega)]
  cases hst : st (attempts + 1) with
  | error m => simp
  | ok o =>
    cases o with
    | none => simp
    | some v =>
      by_cases hv : buildStatusOrFailed v = "IN_PROGRESS"
      · simp [hv]
      · simp [hv]

theorem pollLoop_waits_bounds (buildId : String) (mw : Nat)
    (st : Nat → Except String (Option (Option String))) (qt : Nat → Nat) :
    ∀ elapsed attempts,
      ((pollLoop buildId mw st qt elapsed attempts).waits.Pairwise (· ≤ ·)) ∧
      (∀ w ∈ (pollLoop buildId mw st qt elapsed attempts).waits,
        waitTime (attempts + 1) ≤ w ∧ w ≤ 30000) := by
  intro elapsed attempts
  induction elapsed, attempts using pollLoop.induct buildId mw st qt with
  | case1 el at_ h =>
    rw [pollLoop]
    simp [h]
  | case2 el at_ h m hm =>
    rw [pollLoop]
    simp [h, hm]
  | case3 el at_ h hm =>
    rw [pollLoop]
    simp [h, hm]
  | case4 el at_ h v hm hv ih =>
    obtain ⟨ihp, ihb⟩ := ih
    have hmono : waitTime (at_ + 1) ≤ waitTime (at_ + 1 + 1) := by
      simp only [waitTime]
      omega
    have hcap : waitTime (at_ + 1) ≤ 30000 := Nat.min_le_right _ _
    rw [pollLoop]
    simp only [h, ite_false, hm, hv, ite_true, gt_iff_lt, not_lt, if_neg, not_false_eq_true]
    constructor
    · exact List.pairwise_cons.mpr ⟨fun w hw => le_trans hmono (ihb w hw).1, ihp⟩
    · intro w hw
      rcases List.mem_cons.mp hw with rfl | hw
      · exact ⟨le_refl _, hcap⟩
      · exact ⟨le_trans hmono (ihb w hw).1, (ihb w hw).2⟩
  | case5 el at_ h v hm hv =>
    rw [pollLoop]
    simp [h, hm, hv]



theorem pollLoop_step_done (buildId : String) (mw : Nat)
    (st : Nat → Except String (Option (Option String))) (qt : Nat → Nat)
    (elapsed attempts : Nat) (v : Option String)
    (hel : elapsed ≤ mw) (hst : st (attempts + 1) = .ok (some v))
    (hv : buildStatusOrFailed v ≠ "IN_PROGRESS") :
    pollLoop buildId mw st qt elapsed attempts =
      ⟨.ok (buildStatusOrFailed v), 1, [], [elapsed],
        elapsed + qt (attempts + 1)⟩ := by
  rw [pollLoop]
  rw [if_neg (by omega)]
  simp [hst, hv]

lemma handler_create_ok (l : String) (props : CustomResourceProperties)
    (rem : Nat) (env : Env) (b s : String)
    (h : (executeCodeBuildProject props.ProjectName rem env).result = .ok (b, s)) :
    handler (.create l props) rem env =
      ⟨⟨l, [("BuildId", b), ("BuildStatus", s)], none⟩,
        (executeCodeBuildProject props.ProjectName rem env).startCalls,
        (executeCodeBuildProject props.ProjectName rem env).queries,
        (executeCodeBuildProject props.ProjectName rem env).waits,
        (executeCodeBuildProject props.ProjectName rem env).diagnosticsRun,
        (executeCodeBuildProject props.ProjectName rem env).diagnosticLogLines⟩ := by
  simp [handler, h, physicalResourceIdOf]

lemma handler_create_error (l : String) (props : CustomResourceProperties)
    (rem : Nat) (env : Env) (e : WatcherError)
    (h : (executeCodeBuildProject props.ProjectName rem env).result = .error e) :
    handler (.create l props) rem env =
      ⟨⟨l, [], some e.message⟩,
        (executeCodeBuildProject props.ProjectName rem env).startCalls,
        (executeCodeBuildProject props.ProjectName rem env).queries,
        (executeCodeBuildProject props.ProjectName rem env).waits,
        (executeCodeBuildProject props.ProjectName rem env).diagnosticsRun,
        (executeCodeBuildProject props.ProjectName rem env).diagnosticLogLines⟩ := by
  simp [handler, h, physicalResourceIdOf]

lemma handler_update_ok (p l : String) (props : CustomResourceProperties)
    (rem : Nat) (env : Env) (b s : String)
    (h : (executeCodeBuildProject props.ProjectName rem env).result = .ok (b, s)) :
    handler (.update p l props) rem env =
      ⟨⟨p, [("BuildId", b), ("BuildStatus", s)], none⟩,
        (executeCodeBuildProject props.ProjectName rem env).startCalls,
        (executeCodeBuildProject props.ProjectName rem env).queries,
        (executeCodeBuildProject props.ProjectName rem env).waits,
        (executeCodeBuildProject props.ProjectName rem env).diagnosticsRun,
        (executeCodeBuildProject props.ProjectName rem env).diagnosticLogLines⟩ := by
  simp [handler, h, physicalResourceIdOf]

lemma handler_update_error (p l : String) (props : CustomResourceProperties)
    (rem : Nat) (env : Env) (e : WatcherError)
    (h : (executeCodeBuildProject props.ProjectName rem env).result = .error e) :
    handler (.update p l props) rem env =
      ⟨⟨p, [], some e.message⟩,
        (executeCodeBuildProject props.ProjectName rem env).startCalls,
        (executeCodeBuildProject props.ProjectName rem env).queries,
        (executeCodeBuildProject props.ProjectName rem env).waits,
        (executeCodeBuildProject props.ProjectName rem env).diagnosticsRun,
        (executeCodeBuildProject props.ProjectName rem env).diagnosticLogLines⟩ := by
  simp [handler, h, physicalResourceIdOf]

def props₀ : CustomResourceProperties := ⟨"liquibase-project", "deploy-1"⟩

/-- Scenario environment: the first two status queries report a running
build, the third reports success; queries are instantaneous. -/
def scenarioEnv : Env where
  startBuildResult := .ok (some "build-1")
  statusResult := fun n =>
    if n ≤ 2 then .ok (some (some "IN_PROGRESS")) else .ok (some (some "SUCCEEDED"))
  queryTimeMillis := fun _ => 0
  diagBuildResult := .ok none
  logEventsResult := .ok none

theorem scenarioEnv_poll :
    waitForBuildCompletion "build-1" 1000000000 scenarioEnv =
      ⟨.ok "SUCCEEDED", 3, [6000, 7000], [0, 6000, 13000], 13000⟩ := by
  simp [waitForBuildCompletion, pollLoop, scenarioEnv, maxWaitTime, waitTime,
    buildStatusOrFailed]

theorem scenarioEnv_exec :
    executeCodeBuildProject props₀.ProjectName 1000000000 scenarioEnv =
      ⟨.ok ("build-1", "SUCCEEDED"), 1, 3, [6000, 7000], [0, 6000, 13000],
        false, []⟩ := by
  have h1 : scenarioEnv.startBuildResult = Except.ok (some "build-1") := rfl
  simp only [executeCodeBuildProject, h1, scenarioEnv_poll]
  rw [if_neg (by decide)]
  rw [if_neg (by decide)]

theorem scenarioEnv_handler :
    handler (.create "MyResource" props₀) 1000000000 scenarioEnv =
      ⟨⟨"MyResource", [("BuildId", "build-1"), ("BuildStatus", "SUCCEEDED")], none⟩,
        1, 3, [6000, 7000], false, []⟩ := by
  rw [handler_create_ok "MyResource" props₀ 1000000000 scenarioEnv "build-1" "SUCCEEDED"
    (by rw [scenarioEnv_exec])]
  rw [scenarioEnv_exec]

/-- Environment in which the build never leaves the running state. -/
def alwaysRunningEnv : Env where
  startBuildResult := .ok (some "build-1")
  statusResult := fun _ => .ok (some (some "IN_PROGRESS"))
  queryTimeMillis := fun _ => 0
  diagBuildResult := .ok none
  logEventsResult := .ok none

theorem alwaysRunningEnv_poll :
    waitForBuildCompletion "build-1" 90000 alwaysRunningEnv =
      ⟨.error (.buildTimeout 60000), 7,
        [6000, 7000, 8000, 9000, 10000, 11000, 12000],
        [0, 6000, 13000, 21000, 30000, 40000, 51000], 63000⟩ := by
  simp [waitForBuildCompletion, pollLoop, alwaysRunningEnv, maxWaitTime, waitTime,
    buildStatusOrFailed]

/-- Environment in which the very first status query reports success. -/
def succeedFirstEnv : Env where
  startBuildResult := .ok (some "build-1")
  statusResult := fun _ => .ok (some (some "SUCCEEDED"))
  queryTimeMillis := fun _ => 0
  diagBuildResult := .ok none
  logEventsResult := .ok none

theorem succeedFirstEnv_poll :
    waitForBuildCompletion "build-1" 90000 succeedFirstEnv =
      ⟨.ok "SUCCEEDED", 1, [], [0], 0⟩ := by
  simp [waitForBuildCompletion, pollLoop, succeedFirstEnv, maxWaitTime,
    buildStatusOrFailed]

/-- Environment in which the build fails immediately and the log service
returns three non-blank lines. -/
def failedWithLogsEnv : Env where
  startBuildResult := .ok (some "build-9")
  statusResult := fun _ => .ok (some (some "FAILED"))
  queryTimeMillis := fun _ => 0
  diagBuildResult := .ok (some ⟨some "grp", some "strm", some "link"⟩)
  logEventsResult := .ok (some [some "line one", some "line two", some "line three"])

theorem failedWithLogsEnv_poll :
    waitForBuildCompletion "build-9" 900000 failedWithLogsEnv =
      ⟨.ok "FAILED", 1, [], [0], 0⟩ := by
  simp [waitForBuildCompletion, pollLoop, failedWithLogsEnv, maxWaitTime,
    buildStatusOrFailed]

theorem failedWithLogsEnv_diag :
    logBuildFailureDetails failedWithLogsEnv =
      ["line one", "line two", "line three"] := by
  have h1 : failedWithLogsEnv.diagBuildResult =
      Except.ok (some ⟨some "grp", some "strm", some "link"⟩) := rfl
  have h2 : failedWithLogsEnv.logEventsResult =
      Except.ok (some [some "line one", some "line two", some "line three"]) := rfl
  simp only [logBuildFailureDetails, fetchRecentLogEvents, h1, h2]
  decide

theorem failedWithLogsEnv_exec :
    executeCodeBuildProject props₀.ProjectName 900000 failedWithLogsEnv =
      ⟨.error (.buildFailed "FAILED"), 1, 1, [], [0], true,
        ["line one", "line two", "line three"]⟩ := by
  have h1 : failedWithLogsEnv.startBuildResult = Except.ok (some "build-9") := rfl
  simp only [executeCodeBuildProject, h1, failedWithLogsEnv_poll, failedWithLogsEnv_diag]
  rw [if_neg (by decide)]
  rw [if_pos (by decide)]

theorem failedWithLogsEnv_handler :
    handler (.create "MyResource" props₀) 900000 failedWithLogsEnv =
      ⟨⟨"MyResource", [], some "Build failed with status: FAILED"⟩,
        1, 1, [], true, ["line one", "line two", "line three"]⟩ := by
  rw [handler_create_error "MyResource" props₀ 900000 failedWithLogsEnv
    (.buildFailed "FAILED") (by rw [failedWithLogsEnv_exec])]
  rw [failedWithLogsEnv_exec]
  rfl



/-- Environment whose job-start request throws. -/
def startThrowEnv : Env where
  startBuildResult := .error "Simulated start failure"
  statusResult := fun _ => .ok none
  queryTimeMillis := fun _ => 0
  diagBuildResult := .ok none
  logEventsResult := .ok none

/-- Environment whose job-start request returns no build id. -/
def noHandleEnv : Env where
  startBuildResult := .ok none
  statusResult := fun _ => .ok none
  queryTimeMillis := fun _ => 0
  diagBuildResult := .ok none
  logEventsResult := .ok none

lemma handler_pid (ev : LifecycleEvent) (rem : Nat) (env : Env) :
    (handler ev rem env).response.PhysicalResourceId = physicalResourceIdOf ev := by
  cases ev with
  | create l props =>
    cases h : (executeCodeBuildProject props.ProjectName rem env).result with
    | ok v =>
      obtain ⟨b, s⟩ := v
      rw [handler_create_ok l props rem env b s h]
      rfl
    | error e =>
      rw [handler_create_error l props rem env e h]
      rfl
  | update p l props =>
    cases h : (executeCodeBuildProject props.ProjectName rem env).result with
    | ok v =>
      obtain ⟨b, s⟩ := v
      rw [handler_update_ok p l props rem env b s h]
      rfl
    | error e =>
      rw [handler_update_error p l props rem env e h]
      rfl
  | delete p l props => rfl

/-- C1: for every lifecycle event the handler returns a response and never
raises; any error thrown in the Create/Update path (job start, polling,
diagnostics) is caught at the top level and converted into a failure
response whose `Reason` is the error's message. -/
theorem handler_converts_exceptions_to_failure
    (l p : String) (props : CustomResourceProperties) (rem : Nat) (env : Env)
    (e : WatcherError)
    (h : (executeCodeBuildProject props.ProjectName rem env).result = .error e) :
    (handler (.create l props) rem env).response = ⟨l, [], some e.message⟩ ∧
    (handler (.update p l props) rem env).response = ⟨p, [], some e.message⟩ := by
  rw [handler_create_error l props rem env e h,
    handler_update_error p l props rem env e h]
  exact ⟨rfl, rfl⟩

/-- Witness for C1 at a start request that throws. -/
theorem handler_converts_exceptions_to_failure_witness :
    (handler (.create "Res" props₀) 900000 startThrowEnv).response =
      ⟨"Res", [], some "Simulated start failure"⟩ :=
  (handler_converts_exceptions_to_failure "Res" "Phys" props₀ 900000 startThrowEnv
    (.startFailure "Simulated start failure") rfl).1

/-- C2: on Create the handler mints the identity token from the logical
resource name (no token being present in the event); on Update/Delete it
echoes the token supplied in the event; hence the token of a Create
response is byte-identical to that of a subsequent Update event that
echoes it. -/
theorem identity_token_minted_or_echoed :
    (∀ l props rem env,
      (handler (.create l props) rem env).response.PhysicalResourceId = l) ∧
    (∀ p l props rem env,
      (handler (.update p l props) rem env).response.PhysicalResourceId = p) ∧
    (∀ p l props rem env,
      (handler (.delete p l props) rem env).response.PhysicalResourceId = p) ∧
    (∀ l props rem env l' props' rem' env',
      (handler
        (.update ((handler (.create l props) rem env).response.PhysicalResourceId)
          l' props') rem' env').response.PhysicalResourceId =
      (handler (.create l props) rem env).response.PhysicalResourceId) := by
  refine ⟨?_, ?_, ?_, ?_⟩ <;> intros <;> simp [handler_pid, physicalResourceIdOf]

/-- C3 counterexample: in the scenario where the job starts and the first
two status queries return the running status while the third returns
success, the two inter-poll wait intervals are [6000ms, 7000ms], not
[5000ms, 6000ms] as claimed. -/
theorem scenario_intervals_counterexample :
    (handler (.create "MyResource" props₀) 1000000000 scenarioEnv).waits = [6000, 7000] ∧
    (handler (.create "MyResource" props₀) 1000000000 scenarioEnv).waits ≠ [5000, 6000] ∧
    (handler (.create "MyResource" props₀) 1000000000 scenarioEnv).queries = 3 ∧
    (handler (.create "MyResource" props₀) 1000000000 scenarioEnv).response.Reason = none := by
  rw [scenarioEnv_handler]
  refine ⟨rfl, by decide, rfl, rfl⟩

/-- C3 amended: job starts, first two status queries return the running
status, third returns success: the handler returns a success response
with final status SUCCEEDED, exactly 3 status queries are issued, and the
two inter-poll wait intervals are [6s, 7s]. -/
theorem scenario_success_after_two_running :
    handler (.create "MyResource" props₀) 1000000000 scenarioEnv =
      ⟨⟨"MyResource", [("BuildId", "build-1"), ("BuildStatus", "SUCCEEDED")], none⟩,
        1, 3, [6000, 7000], false, []⟩ :=
  scenarioEnv_handler

/-- C4 counterexample: with a 90s remaining budget (deadline budget 60s)
and a build that never completes, the poller stops with the timeout error
at elapsed 63000ms, strictly later than the deadline T+D. -/
theorem deadline_overshoot_counterexample :
    (waitForBuildCompletion "build-1" 90000 alwaysRunningEnv).result =
      .error (.buildTimeout (maxWaitTime 90000)) ∧
    (waitForBuildCompletion "build-1" 90000 alwaysRunningEnv).endElapsed = 63000 ∧
    ¬((waitForBuildCompletion "build-1" 90000 alwaysRunningEnv).endElapsed ≤ maxWaitTime 90000) := by
  rw [alwaysRunningEnv_poll]
  refine ⟨by decide, rfl, by decide⟩

/-- C4 amended: the poller checks the deadline before each status query,
so every query is issued at elapsed time at most the budget D; when it
stops with the timeout error it does so strictly after D but within one
final iteration (one status query plus one capped 30s sleep) of D. -/
theorem poller_stops_within_one_iteration_of_deadline
    (b : String) (rem q : Nat) (env : Env)
    (hq : ∀ n, env.queryTimeMillis n ≤ q) :
    (∀ t ∈ (waitForBuildCompletion b rem env).queryElapsed, t ≤ maxWaitTime rem) ∧
    (∀ mw', (waitForBuildCompletion b rem env).result = .error (.buildTimeout mw') →
      mw' = maxWaitTime rem ∧
      maxWaitTime rem < (waitForBuildCompletion b rem env).endElapsed ∧
      (waitForBuildCompletion b rem env).endElapsed ≤ maxWaitTime rem + q + 30000) := by
  simp only [waitForBuildCompletion]
  constructor
  · exact fun t ht =>
      pollLoop_queryElapsed_le b (maxWaitTime rem) env.statusResult env.queryTimeMillis 0 0 t ht
  · intro mw' h
    exact pollLoop_timeout_bound b (maxWaitTime rem) env.statusResult env.queryTimeMillis
      q hq 0 0 (by omega) mw' h

/-- Witness for C4 amended at the always-running environment. -/
theorem poller_stops_within_one_iteration_witness :
    maxWaitTime 90000 < (waitForBuildCompletion "build-1" 90000 alwaysRunningEnv).endElapsed ∧
    (waitForBuildCompletion "build-1" 90000 alwaysRunningEnv).endElapsed ≤
      maxWaitTime 90000 + 0 + 30000 := by
  have h := (poller_stops_within_one_iteration_of_deadline "build-1" 90000 0 alwaysRunningEnv
    (fun n => Nat.le_refl 0)).2 60000 (by rw [alwaysRunningEnv_poll])
  exact ⟨h.2.1, h.2.2⟩

/-- C5 counterexample: with 90s remaining the deadline budget equals the
60s floor exactly, so the strict invariant deadline > now + floor fails,
and yet the watcher issues a status query instead of failing fast. -/
theorem deadline_floor_counterexample :
    ¬(60000 < maxWaitTime 90000) ∧
    1 ≤ (waitForBuildCompletion "build-1" 90000 succeedFirstEnv).queries ∧
    (waitForBuildCompletion "build-1" 90000 succeedFirstEnv).result = .ok "SUCCEEDED" := by
  rw [succeedFirstEnv_poll]
  refine ⟨by decide, by decide, rfl⟩

/-- C5 amended: the polling budget is max(remaining - 30s, 60s); the 60s
floor is enforced by clamping, so deadline >= now + floor always holds by
construction, the watcher never fails fast, and at least one status query
is always issued. -/
theorem deadline_floor_enforced_by_clamping :
    ∀ rem : Nat,
      maxWaitTime rem = max (rem - 30000) 60000 ∧
      60000 ≤ maxWaitTime rem ∧
      ∀ b env, 1 ≤ (waitForBuildCompletion b rem env).queries := by
  intro rem
  refine ⟨rfl, le_max_right _ _, fun b env => ?_⟩
  exact pollLoop_queries_pos b (maxWaitTime rem) env.statusResult env.queryTimeMillis 0 0
    (Nat.zero_le _)

/-- C6 counterexample: the backoff interval never starts at the 5s base:
the first interval slept is 6000ms and 5000ms never occurs in the
produced wait sequence. -/
theorem backoff_base_counterexample :
    (waitForBuildCompletion "build-1" 1000000000 scenarioEnv).waits.head? = some 6000 ∧
    (waitForBuildCompletion "build-1" 1000000000 scenarioEnv).waits.head? ≠ some 5000 ∧
    5000 ∉ (waitForBuildCompletion "build-1" 1000000000 scenarioEnv).waits := by
  rw [scenarioEnv_poll]
  refine ⟨rfl, by decide, by decide⟩

/-- C6 amended: the wait interval for attempt n is min(5000 + 1000*n,
30000) with attempts counted from 1, so every produced backoff sequence
is monotonically non-decreasing, capped at 30s, and bounded below by 6s
(base 5s plus one 1s increment); the 5s base itself is never slept. -/
theorem backoff_monotone_capped :
    (∀ n, waitTime n ≤ waitTime (n + 1) ∧ waitTime n ≤ 30000) ∧
    (∀ b rem env,
      ((waitForBuildCompletion b rem env).waits.Pairwise (· ≤ ·)) ∧
      ∀ w ∈ (waitForBuildCompletion b rem env).waits, 6000 ≤ w ∧ w ≤ 30000) := by
  constructor
  · intro n
    constructor
    · simp only [waitTime]
      omega
    · exact Nat.min_le_right _ _
  · intro b rem env
    have h := pollLoop_waits_bounds b (maxWaitTime rem) env.statusResult env.queryTimeMillis 0 0
    simp only [waitForBuildCompletion]
    refine ⟨h.1, fun w hw => ?_⟩
    have h1 := (h.2 w hw).1
    have h2 := (h.2 w hw).2
    have h61 : waitTime (0 + 1) = 6000 := by decide
    omega

/-- Witness for C6 amended at the scenario environment. -/
theorem backoff_monotone_capped_witness :
    6000 ∈ (waitForBuildCompletion "build-1" 1000000000 scenarioEnv).waits ∧
    (6000 ≤ 6000 ∧ 6000 ≤ 30000) := by
  have hm : 6000 ∈ (waitForBuildCompletion "build-1" 1000000000 scenarioEnv).waits := by
    rw [scenarioEnv_poll]
    decide
  exact ⟨hm, (backoff_monotone_capped.2 "build-1" 1000000000 scenarioEnv).2 6000 hm⟩

/-- C7: for every Delete event no job client call occurs (no job start
and no status query) and the handler responds immediately with
success. -/
theorem delete_takes_no_external_action
    (p l : String) (props : CustomResourceProperties) (rem : Nat) (env : Env) :
    handler (.delete p l props) rem env = ⟨⟨p, [], none⟩, 0, 0, [], false, []⟩ :=
  rfl

/-- C8: if the job service returns no usable handle at start time (no
build id, or an empty one), the handler returns a failure response whose
reason says that no build ID was returned, zero status queries are
issued, and the start is attempted exactly once. -/
theorem no_handle_fails_without_queries
    (l p : String) (props : CustomResourceProperties) (rem : Nat) (env : Env)
    (h : env.startBuildResult = .ok none ∨ env.startBuildResult = .ok (some "")) :
    ((handler (.create l props) rem env).response.Reason =
      some "Failed to start build: No build ID returned from CodeBuild" ∧
     (handler (.create l props) rem env).queries = 0 ∧
     (handler (.create l props) rem env).startCalls = 1) ∧
    ((handler (.update p l props) rem env).response.Reason =
      some "Failed to start build: No build ID returned from CodeBuild" ∧
     (handler (.update p l props) rem env).queries = 0 ∧
     (handler (.update p l props) rem env).startCalls = 1) := by
  have hex : executeCodeBuildProject props.ProjectName rem env =
      ⟨.error .noBuildId, 1, 0, [], [], false, []⟩ := by
    rcases h with h | h <;> simp [executeCodeBuildProject, h]
  rw [handler_create_error l props rem env .noBuildId (by rw [hex]),
    handler_update_error p l props rem env .noBuildId (by rw [hex]), hex]
  exact ⟨⟨rfl, rfl, rfl⟩, ⟨rfl, rfl, rfl⟩⟩

/-- Witness for C8 at an environment returning no build id. -/
theorem no_handle_fails_without_queries_witness :
    (handler (.create "Res" props₀) 900000 noHandleEnv).response.Reason =
      some "Failed to start build: No build ID returned from CodeBuild" ∧
    (handler (.create "Res" props₀) 900000 noHandleEnv).queries = 0 :=
  ⟨(no_handle_fails_without_queries "Res" "Phys" props₀ 900000 noHandleEnv (Or.inl rfl)).1.1,
   (no_handle_fails_without_queries "Res" "Phys" props₀ 900000 noHandleEnv (Or.inl rfl)).1.2.1⟩

/-- C9 counterexample: the job reaches terminal status FAILED and the log
fetch succeeds with 3 non-blank lines, but the failure reason delivered
to the caller is exactly "Build failed with status: FAILED" and does not
include any of the 3 log lines. -/
theorem failure_reason_excludes_logs_counterexample :
    (handler (.create "MyResource" props₀) 900000 failedWithLogsEnv).diagnosticLogLines =
      ["line one", "line two", "line three"] ∧
    (handler (.create "MyResource" props₀) 900000 failedWithLogsEnv).response.Reason =
      some "Build failed with status: FAILED" ∧
    ¬("line one".toList <:+: "Build failed with status: FAILED".toList) ∧
    ¬("line two".toList <:+: "Build failed with status: FAILED".toList) ∧
    ¬("line three".toList <:+: "Build failed with status: FAILED".toList) := by
  rw [failedWithLogsEnv_handler]
  refine ⟨rfl, rfl, by decide, by decide, by decide⟩

/-- C9 amended: on a non-success terminal status the diagnostics
collector runs and gathers the trimmed non-blank log lines, in the order
the log service returned them, for console logging only; the failure
reason delivered to the caller is "Build failed with status: " followed
by the terminal status and excludes the log lines. -/
theorem failed_build_reason_and_console_logs
    (l : String) (props : CustomResourceProperties) (rem : Nat) (env : Env)
    (bid st : String)
    (h1 : env.startBuildResult = .ok (some bid)) (h2 : bid ≠ "")
    (h3 : (waitForBuildCompletion bid rem env).result = .ok st)
    (h4 : st ≠ "SUCCEEDED") :
    (handler (.create l props) rem env).response.Reason =
      some ("Build failed with status: " ++ st) ∧
    (handler (.create l props) rem env).diagnosticsRun = true ∧
    (handler (.create l props) rem env).diagnosticLogLines = logBuildFailureDetails env := by
  have hex : executeCodeBuildProject props.ProjectName rem env =
      ⟨.error (.buildFailed st), 1, (waitForBuildCompletion bid rem env).queries,
        (waitForBuildCompletion bid rem env).waits,
        (waitForBuildCompletion bid rem env).queryElapsed,
        true, logBuildFailureDetails env⟩ := by
    simp only [executeCodeBuildProject, h1]
    rw [if_neg h2]
    simp only [h3]
    rw [if_pos h4]
  rw [handler_create_error l props rem env (.buildFailed st) (by rw [hex]), hex]
  exact ⟨rfl, rfl, rfl⟩

/-- Witness for C9 amended at the failing-build environment. -/
theorem failed_build_reason_and_console_logs_witness :
    (handler (.create "MyResource" props₀) 900000 failedWithLogsEnv).response.Reason =
      some ("Build failed with status: " ++ "FAILED") ∧
    (handler (.create "MyResource" props₀) 900000 failedWithLogsEnv).diagnosticLogLines =
      logBuildFailureDetails failedWithLogsEnv := by
  have h := failed_build_reason_and_console_logs "MyResource" props₀ 900000 failedWithLogsEnv
    "build-9" "FAILED" rfl (by decide) (by rw [failedWithLogsEnv_poll]) (by decide)
  exact ⟨h.1, h.2.2⟩

/-- C10: the poll loop continues only while the observed status is
exactly IN_PROGRESS: any other status string terminates polling with that
status as the result, and a build record with a missing status field is
coerced to FAILED (a job failure, not a watcher error). -/
theorem poll_loop_exits_on_any_non_running_status :
    (buildStatusOrFailed none = "FAILED") ∧
    (∀ b mw st qt elapsed attempts s,
      (pollLoop b mw st qt elapsed attempts).result = .ok s → s ≠ "IN_PROGRESS") ∧
    (∀ b mw (st : Nat → Except String (Option (Option String))) (qt : Nat → Nat)
        elapsed attempts v,
      elapsed ≤ mw → st (attempts + 1) = .ok (some v) →
      buildStatusOrFailed v ≠ "IN_PROGRESS" →
      pollLoop b mw st qt elapsed attempts =
        ⟨.ok (buildStatusOrFailed v), 1, [], [elapsed],
          elapsed + qt (attempts + 1)⟩) := by
  refine ⟨rfl, ?_, ?_⟩
  · intro b mw st qt elapsed attempts s h
    exact pollLoop_ok_ne b mw st qt elapsed attempts s h
  · intro b mw st qt elapsed attempts v hel hst hv
    exact pollLoop_step_done b mw st qt elapsed attempts v hel hst hv

/-- Witness for C10 at an unrecognized status string. -/
theorem poll_loop_exits_witness :
    pollLoop "b" 60000 (fun _ => Except.ok (some (some "BANANA"))) (fun _ => 0) 0 0 =
      ⟨.ok "BANANA", 1, [], [0], 0⟩ ∧ "BANANA" ≠ "IN_PROGRESS" := by
  have h := poll_loop_exits_on_any_non_running_status.2.2 "b" 60000
    (fun _ => Except.ok (some (some "BANANA"))) (fun _ => 0) 0 0 (some "BANANA")
    (Nat.zero_le _) rfl (by decide)
  refine ⟨by simpa using h, ?_⟩
  exact poll_loop_exits_on_any_non_running_status.2.1 "b" 60000
    (fun _ => Except.ok (some (some "BANANA"))) (fun _ => 0) 0 0 "BANANA" (by rw [h]; rfl)

end LiquibaseRDS
